import Mathlib

/-!
Shallow embedding of `src/logger.js` (loxberry-logger): a session-oriented
logging facility backed by two SQLite tables (`logs` and `logs_attr`).

Modelling conventions:
* The database plus the in-object fields of the `Logger` class become the
  explicit record `LoggerState`.  The two tables are lists of rows kept in
  insertion (rowid) order; SQLite's auto-assigned `LOGKEY` rowid is modelled
  by the counter `nextKey` (the table is never deleted from, so rowids are
  assigned consecutively starting at 1).
* JavaScript values read out of a query result are modelled by `JsVal`;
  a query result row is an association list from (upper-case) column names
  to `JsVal`, and the JS property access `resp.COL` is `getCol resp "COL"`
  (returning `none` for a column the SELECT did not produce, i.e. JS
  `undefined`).  JS truthiness tests and the loose comparison `x != null`
  are `jsTruthy` and `jsNeqNull`.
* `getDateTime` formats the current wall clock with the one-second-granular
  pattern YYYY-MM-DD HH:mm:ss; the formatted string is order-isomorphic and
  injective on whole seconds, so timestamps are modelled as seconds (Nat)
  and the raw clock reading as milliseconds.  Every impure call to
  `getDateTime()` in the source consumes one explicit clock-reading
  argument of the corresponding Lean function.
* SQL `LIKE` (used by `getLogKey`) is modelled by `likeMatch`, with `%`
  and `_` wildcards and SQLite's default ASCII case-insensitivity.
-/

set_option autoImplicit false

/-- Models a JavaScript value read from a better-sqlite3 result row:
SQL NULL comes back as JS null, text as a string, and the integer columns
of this schema as numbers. -/
inductive JsVal where
  | vnull
  | vstr (s : String)
  | vnum (n : Nat)
deriving Repr, DecidableEq

/-- Models the JS property access `row.col` on a query-result object:
`none` is JS undefined (column absent from the SELECT list). -/
def getCol (row : List (String × JsVal)) (c : String) : Option JsVal :=
  match row.find? (fun p => p.1 == c) with
  | some p => some p.2
  | none => none

/-- Models JS truthiness of a possibly-undefined value: undefined, null,
the empty string and the number 0 are falsy. -/
def jsTruthy : Option JsVal → Bool
  | none => false
  | some JsVal.vnull => false
  | some (JsVal.vstr s) => s != ""
  | some (JsVal.vnum n) => n != 0

/-- Models the JS loose comparison `x != null`, which is false exactly when
`x` is null or undefined. -/
def jsNeqNull : Option JsVal → Bool
  | none => false
  | some JsVal.vnull => false
  | some _ => true

/-- Models JS truthiness of an optional row key (`if (key)` in `startLog`):
absent and 0 are falsy. -/
def jsTruthyKey : Option Nat → Bool
  | none => false
  | some k => k != 0

/-- Models SQL `string LIKE pattern` with SQLite defaults: `%` matches any
(possibly empty) run of characters, `_` matches exactly one character, and
plain characters compare ASCII-case-insensitively. -/
def likeMatch : List Char → List Char → Bool
  | [], s => s.isEmpty
  | q :: ps, s =>
    if q = '%' then
      (List.range (s.length + 1)).any fun i => likeMatch ps (s.drop i)
    else
      match s with
      | [] => false
      | c :: cs => (q == '_' || q.toLower == c.toLower) && likeMatch ps cs

/-- One row of the `logs` table (schema created in `initLog`):
PACKAGE, NAME, FILENAME, LOGSTART, LOGEND (nullable), LASTMODIFIED,
LOGKEY INTEGER PRIMARY KEY. Timestamps are whole seconds. -/
structure Row where
  package : String
  name : String
  filename : String
  logstart : Nat
  logend : Option Nat
  lastmodified : Nat
  logkey : Nat
deriving Repr, DecidableEq

/-- One row of the `logs_attr` table: keyref, attrib, value with
PRIMARY KEY (keyref, attrib). -/
structure AttrRow where
  keyref : Nat
  attrib : String
  value : String
deriving Repr, DecidableEq

/-- The state of one `Logger` object together with its database:
`dbh` is whether the handle is initialized (`this.dbh`), `logs` and
`logsAttr` are the two tables in rowid order, `logkey` is
`this.params.logkey`, `nextKey` the next rowid SQLite will assign, and the
remaining fields are the constructor parameters held in `this`. -/
structure LoggerState where
  dbh : Bool
  logs : List Row
  logsAttr : List AttrRow
  logkey : Option Nat
  nextKey : Nat
  pkg : String
  name : String
  filename : String
  logLevel : Int
deriving Repr, DecidableEq

/-- Severity constant DEBUG = 7 from the source. -/
def DEBUG : Int := 7

/-- Severity constant INFO = 6 from the source. -/
def INFO : Int := 6

/-- Severity constant WARN = 4 from the source. -/
def WARN : Int := 4

/-- Severity constant ERROR = 3 from the source. -/
def ERROR : Int := 3

/-- Models the module-level `format` arrow function: upper-cases the level
and renders one console line. -/
def format (level message : String) : String :=
  level.toUpper ++ ": " ++ message ++ "\n"

/-- Models a JS Error-like object passed to `Logger.error`: an optional
stack string plus name and message. -/
structure JsError where
  stack : Option String
  name : String
  message : String
deriving Repr, DecidableEq

namespace Logger

/-- Models `getDateTime`: formats the millisecond wall clock with pattern
YYYY-MM-DD HH:mm:ss. The formatted string is injective and
order-preserving on whole seconds, so it is represented by the second
count. -/
def getDateTime (nowMs : Nat) : Nat :=
  nowMs / 1000

/-- Models `info(message)`: the line written to stdout, if any. -/
def info (logLevel : Int) (message : String) : Option String :=
  if logLevel >= INFO then some (format "INFO" message) else none

/-- Models `debug(message)`: the line written to stdout, if any; gated by
strict equality with DEBUG. -/
def debug (logLevel : Int) (message : String) : Option String :=
  if logLevel = DEBUG then some (format "DEBUG" message) else none

/-- Models `warn(message)`: the line written to stdout, if any. -/
def warn (logLevel : Int) (message : String) : Option String :=
  if logLevel >= WARN then some (format "WARN" message) else none

/-- Models `error(message, error)`: the list of lines written to stderr.
When the optional error object is truthy, a truthy `error.stack` is
printed indented, otherwise a name-colon-message line is. -/
def error (logLevel : Int) (message : String) (err : Option JsError) : List String :=
  if logLevel >= ERROR then
    format "ERROR" message ::
      (match err with
       | none => []
       | some e =>
         match e.stack with
         | some st =>
           if st != "" then ["    " ++ st ++ "\n"]
           else ["    " ++ e.name ++ ": " ++ e.message ++ "\n"]
         | none => ["    " ++ e.name ++ ": " ++ e.message ++ "\n"])
  else []

/-- The result row of `SELECT PACKAGE, NAME, FILENAME, LOGSTART, LOGEND
FROM logs WHERE LOGKEY = ? LIMIT 1` (the SELECT list shared by
`getSessionByKey` and `getLogSession`, which omits LOGKEY). -/
def selectedSessionCols (r : Row) : List (String × JsVal) :=
  [("PACKAGE", JsVal.vstr r.package),
   ("NAME", JsVal.vstr r.name),
   ("FILENAME", JsVal.vstr r.filename),
   ("LOGSTART", JsVal.vnum r.logstart),
   ("LOGEND", match r.logend with | none => JsVal.vnull | some t => JsVal.vnum t)]

/-- Evaluates `WHERE LOGKEY = ? LIMIT 1` for the bound key: a NULL binding
matches no row (SQL three-valued equality), otherwise the unique row with
that primary key is found. -/
def findRowByKey (rows : List Row) : Option Nat → Option Row
  | none => none
  | some k => rows.find? (fun r => r.logkey == k)

/-- Evaluates `SELECT ... FROM logs WHERE FILENAME LIKE ? ORDER BY
LOGSTART DESC LIMIT 1`: among the rows whose FILENAME matches the pattern,
the first (in table-scan order) row of maximal LOGSTART. -/
def latestMatch (rows : List Row) (pat : String) : Option Row :=
  (rows.filter fun r => likeMatch pat.toList r.filename.toList).foldl
    (fun acc r =>
      match acc with
      | none => some r
      | some b => if b.logstart < r.logstart then some r else some b)
    none

/-- Models `getLogSession()`: returns null when uninitialized, when no row
has the held `params.logkey`, or when that row's LOGEND is non-null
(loose `!= null`); otherwise returns the held key. -/
def getLogSession (s : LoggerState) : Option Nat :=
  if s.dbh = false then none
  else
    match findRowByKey s.logs s.logkey with
    | none => none
    | some r =>
      if jsNeqNull (getCol (selectedSessionCols r) "LOGEND") then none
      else s.logkey

/-- Models `getLogKey()`: latest row whose FILENAME matches
`params.filename` under SQL LIKE; the row's LOGKEY is returned when
truthy (rowids are nonzero), else null. -/
def getLogKey (s : LoggerState) : Option Nat :=
  if s.dbh = false then none
  else
    match latestMatch s.logs s.filename with
    | none => none
    | some r => if r.logkey != 0 then some r.logkey else none

/-- Models `getSessionByKey()`: looks the held key up, then reads
`resp.LOGKEY` from a result row whose SELECT list did not include LOGKEY,
so the access yields JS undefined. -/
def getSessionByKey (s : LoggerState) : Option Nat :=
  if s.dbh = false then none
  else
    match findRowByKey s.logs s.logkey with
    | none => none
    | some r =>
      let v := getCol (selectedSessionCols r) "LOGKEY"
      if jsTruthy v then
        match v with
        | some (JsVal.vnum n) => some n
        | _ => none
      else none

/-- Evaluates `INSERT OR REPLACE INTO logs_attr` under the composite
primary key (keyref, attrib): conflicting rows are deleted and the new row
is appended. -/
def upsertAttr (attrs : List AttrRow) (k : Nat) (a v : String) : List AttrRow :=
  (attrs.filter fun row => !(row.keyref == k && row.attrib == a)) ++ [⟨k, a, v⟩]

/-- Models `setSessionTitle(title)`: undefined-return when uninitialized
(inner `none`), upsert of the reserved LOGSTARTMESSAGE attribute for the
held key and return of the title otherwise.  The outer `none` is the
constraint error better-sqlite3 throws when `params.logkey` is null
(keyref is declared NOT NULL). -/
def setSessionTitle (s : LoggerState) (title : String) :
    Option (LoggerState × Option String) :=
  if s.dbh = false then some (s, none)
  else
    match s.logkey with
    | none => none
    | some k =>
      some ({ s with logsAttr := upsertAttr s.logsAttr k "LOGSTARTMESSAGE" title },
            some title)

/-- Models `startLog()`: no-op when uninitialized or when
`getLogSession()` returns a truthy key; otherwise inserts a new row with
LOGSTART and LASTMODIFIED from two separate `getDateTime()` calls (clock
readings `t1Ms`, `t2Ms`), stores the truthy `lastInsertRowid` into
`params.logkey`, and records the start-message attribute
(name + " started") via `setSessionTitle`. -/
def startLog (s : LoggerState) (t1Ms t2Ms : Nat) : LoggerState :=
  if s.dbh = false then s
  else if jsTruthyKey (getLogSession s) then s
  else
    let row : Row :=
      { package := s.pkg, name := s.name, filename := s.filename,
        logstart := getDateTime t1Ms, logend := none,
        lastmodified := getDateTime t2Ms, logkey := s.nextKey }
    let sIns := { s with logs := s.logs ++ [row], nextKey := s.nextKey + 1 }
    let s1 := if s.nextKey != 0 then { sIns with logkey := some s.nextKey } else sIns
    match setSessionTitle s1 (s.name ++ " started") with
    | some (s2, _) => s2
    | none => s1

/-- Models `endLog()`: no-op when uninitialized; otherwise `UPDATE logs
SET LOGEND = ..., LASTMODIFIED = ... WHERE LOGKEY = params.logkey` with
the two timestamps from two separate `getDateTime()` calls.  A null key
binding matches no row. -/
def endLog (s : LoggerState) (t1Ms t2Ms : Nat) : LoggerState :=
  if s.dbh = false then s
  else
    { s with
      logs := s.logs.map fun r =>
        match s.logkey with
        | some k =>
          if r.logkey == k then
            { r with logend := some (getDateTime t1Ms),
                     lastmodified := getDateTime t2Ms }
          else r
        | none => r }

end Logger

/-- The state reached by the constructor against a fresh database file,
just before its `startLog()` call: `initLog()` has opened the handle and
created the two empty tables, and `params.logkey` has been resolved by
`this.getLogKey()`. -/
def initFresh (pkg nm fn : String) (lvl : Int) : LoggerState :=
  let s0 : LoggerState :=
    { dbh := true, logs := [], logsAttr := [], logkey := none, nextKey := 1,
      pkg := pkg, name := nm, filename := fn, logLevel := lvl }
  { s0 with logkey := Logger.getLogKey s0 }

/-- The number of open (LOGEND absent) `logs` rows carrying a given
filename. -/
def openCount (rows : List Row) (fn : String) : Nat :=
  (rows.filter fun r => r.filename == fn && r.logend == none).length

/-- Folds a sequence of `setSessionTitle` calls over the state,
propagating a thrown constraint error as `none`. -/
def setTitles (s : LoggerState) : List String → Option LoggerState
  | [] => some s
  | t :: ts =>
    match Logger.setSessionTitle s t with
    | some (s1, _) => setTitles s1 ts
    | none => none

/-- A state whose store handle was never initialized (`this.dbh` null),
with one concrete configuration; used to witness the uninitialized-store
semantics. -/
def uninitState : LoggerState :=
  { dbh := false, logs := [], logsAttr := [], logkey := none, nextKey := 1,
    pkg := "p", name := "n", filename := "f.log", logLevel := 6 }

/-- A reachable store holding one session created for filename
"secret.log", observed by a logger whose configured filename is the LIKE
wildcard "%". -/
def wildcardState : LoggerState :=
  { dbh := true,
    logs := [⟨"p", "n", "secret.log", 10, none, 10, 1⟩],
    logsAttr := [⟨1, "LOGSTARTMESSAGE", "n started"⟩],
    logkey := none, nextKey := 2,
    pkg := "q", name := "m", filename := "%", logLevel := 6 }

/-- A LIKE pattern always matches itself: `%` can stand for the literal
percent sign and `_` for the literal underscore, so `f LIKE f` holds for
every string `f`. -/
theorem likeMatch_self (p : List Char) : likeMatch p p = true := by
  induction p with
  | nil => rfl
  | cons q ps ih =>
    by_cases hq : q = '%'
    · subst hq
      rw [likeMatch, if_pos rfl, List.any_eq_true]
      exact ⟨1, by simp, ih⟩
    · rw [likeMatch, if_neg hq]
      simp [ih]

/-- Upserting an attribute leaves exactly one row for its (key, attribute)
pair, holding the new value. -/
theorem filter_upsertAttr (attrs : List AttrRow) (k : Nat) (a v : String) :
    (Logger.upsertAttr attrs k a v).filter
        (fun row => row.keyref == k && row.attrib == a)
      = [⟨k, a, v⟩] := by
  simp [Logger.upsertAttr, List.filter_append, List.filter_filter]

/-- C1: debug(message) emits output iff logLevel equals DEBUG (7) exactly,
while info emits iff logLevel is at least INFO (6), warn iff at least
WARN (4), and error iff at least ERROR (3). -/
theorem C1_level_gating (lvl : Int) (m : String) (e : Option JsError) :
    ((Logger.debug lvl m).isSome ↔ lvl = DEBUG)
    ∧ ((Logger.info lvl m).isSome ↔ lvl ≥ INFO)
    ∧ ((Logger.warn lvl m).isSome ↔ lvl ≥ WARN)
    ∧ (Logger.error lvl m e ≠ [] ↔ lvl ≥ ERROR) := by
  refine ⟨?_, ?_, ?_, ?_⟩ <;>
    simp only [Logger.debug, Logger.info, Logger.warn, Logger.error] <;>
    split <;> simp_all

/-- C2: starting from a freshly initialized store, invoking session
creation twice in succession for any filename is idempotent: the second
call is a no-op on the state, the held session key is unchanged, and
exactly one open session row exists for that filename. -/
theorem C2_create_idempotent (pkg nm fn : String) (lvl : Int) (t1 t2 t3 t4 : Nat) :
    Logger.startLog (Logger.startLog (initFresh pkg nm fn lvl) t1 t2) t3 t4
      = Logger.startLog (initFresh pkg nm fn lvl) t1 t2
    ∧ (Logger.startLog (Logger.startLog (initFresh pkg nm fn lvl) t1 t2) t3 t4).logkey
      = (Logger.startLog (initFresh pkg nm fn lvl) t1 t2).logkey
    ∧ openCount
        (Logger.startLog (Logger.startLog (initFresh pkg nm fn lvl) t1 t2) t3 t4).logs
        fn = 1 := by
  refine ⟨rfl, rfl, ?_⟩
  show openCount
      [⟨pkg, nm, fn, Logger.getDateTime t1, none, Logger.getDateTime t2, 1⟩] fn = 1
  simp [openCount]

/-- C3 counterexample: creating a session with package "p", name "n",
filename "f.log" stores the attribute value "n started", not a
caller-supplied title such as the scenario's "t" — the operation takes no
title parameter. -/
theorem C3_title_counterexample :
    (Logger.startLog (initFresh "p" "n" "f.log" 6) 0 0).logsAttr
      = [⟨1, "LOGSTARTMESSAGE", "n started"⟩]
    ∧ ("n started" : String) ≠ "t" :=
  ⟨rfl, by decide⟩

/-- C3 amended: after creating a new session (package p, name n,
filename f), a row exists in logs with filename f and logend absent, and
logs_attr contains exactly one row for the new key, whose attribute is the
reserved title attribute LOGSTARTMESSAGE and whose value is the session
name followed by " started" (generated by the code; there is no
caller-supplied title). -/
theorem C3_title_amended (pkg nm fn : String) (lvl : Int) (t1 t2 : Nat) :
    (∃ r, r ∈ (Logger.startLog (initFresh pkg nm fn lvl) t1 t2).logs
        ∧ r.filename = fn ∧ r.logend = none)
    ∧ (Logger.startLog (initFresh pkg nm fn lvl) t1 t2).logsAttr
        = [⟨1, "LOGSTARTMESSAGE", nm ++ " started"⟩] :=
  ⟨⟨⟨pkg, nm, fn, Logger.getDateTime t1, none, Logger.getDateTime t2, 1⟩,
    List.mem_singleton_self _, rfl, rfl⟩, rfl⟩

/-- C4: after a create followed by an end for a filename, the
open-session lookup returns absent while the unconditional key lookup
still returns the key of the now-closed session row. -/
theorem C4_close_then_lookup (pkg nm fn : String) (lvl : Int) (t1 t2 t3 t4 : Nat) :
    Logger.getLogSession
        (Logger.endLog (Logger.startLog (initFresh pkg nm fn lvl) t1 t2) t3 t4) = none
    ∧ Logger.getLogKey
        (Logger.endLog (Logger.startLog (initFresh pkg nm fn lvl) t1 t2) t3 t4) = some 1
    ∧ (Logger.endLog (Logger.startLog (initFresh pkg nm fn lvl) t1 t2) t3 t4).logs
        = [⟨pkg, nm, fn, Logger.getDateTime t1, some (Logger.getDateTime t3),
            Logger.getDateTime t4, 1⟩] := by
  refine ⟨rfl, ?_, rfl⟩
  show Logger.getLogKey
      { dbh := true,
        logs := [⟨pkg, nm, fn, Logger.getDateTime t1, some (Logger.getDateTime t3),
                  Logger.getDateTime t4, 1⟩],
        logsAttr := [⟨1, "LOGSTARTMESSAGE", nm ++ " started"⟩],
        logkey := some 1, nextKey := 2,
        pkg := pkg, name := nm, filename := fn, logLevel := lvl } = some 1
  simp [Logger.getLogKey, Logger.latestMatch, likeMatch_self]

/-- C5: when the key resolution found no session row for the configured
filename (the held key is the absent result of getLogKey, and no stored
row matches the filename), ending the session is a no-op: the state, and
in particular every row of the logs table, is unchanged and nothing is
raised (the UPDATE with a null key binding matches no row). -/
theorem C5_endLog_noop (s : LoggerState) (t1 t2 : Nat)
    (hkey : s.logkey = Logger.getLogKey s)
    (hno : ∀ r ∈ s.logs, likeMatch s.filename.toList r.filename.toList = false) :
    Logger.endLog s t1 t2 = s := by
  have hfilt : s.logs.filter (fun r => likeMatch s.filename.toList r.filename.toList) = [] :=
    List.filter_eq_nil_iff.mpr (by intro r hr; simpa using hno r hr)
  have hk : s.logkey = none := by
    rw [hkey]
    unfold Logger.getLogKey
    split
    · rfl
    · unfold Logger.latestMatch
      rw [hfilt]
      rfl
  obtain ⟨d, lg, la, lk, nk, pk2, nm2, fn2, ll⟩ := s
  have hk2 : lk = none := hk
  subst hk2
  unfold Logger.endLog
  split
  · rfl
  · simp

/-- Witness for C5 at a concrete state: a freshly initialized empty store
for filename "f.log". -/
theorem C5_endLog_noop_witness :
    Logger.endLog (initFresh "p" "n" "f.log" 6) 5 6 = initFresh "p" "n" "f.log" 6 :=
  C5_endLog_noop (initFresh "p" "n" "f.log" 6) 5 6 rfl
    (by intro r hr; exact absurd hr (List.not_mem_nil r))

/-- C6: while the store handle is uninitialized, session creation, both
lookups, by-key lookup, ending, and attribute setting all return an
absent result, raise nothing, and leave the state unchanged. -/
theorem C6_uninit_noop (s : LoggerState) (t1 t2 : Nat) (title : String)
    (h : s.dbh = false) :
    Logger.startLog s t1 t2 = s
    ∧ Logger.endLog s t1 t2 = s
    ∧ Logger.setSessionTitle s title = some (s, none)
    ∧ Logger.getLogSession s = none
    ∧ Logger.getLogKey s = none
    ∧ Logger.getSessionByKey s = none := by
  refine ⟨?_, ?_, ?_, ?_, ?_, ?_⟩ <;>
    simp [Logger.startLog, Logger.endLog, Logger.setSessionTitle,
      Logger.getLogSession, Logger.getLogKey, Logger.getSessionByKey, h]

/-- Witness for C6 at a concrete never-initialized state. -/
theorem C6_uninit_noop_witness :
    Logger.startLog uninitState 0 1 = uninitState
    ∧ Logger.endLog uninitState 0 1 = uninitState
    ∧ Logger.setSessionTitle uninitState "t" = some (uninitState, none)
    ∧ Logger.getLogSession uninitState = none
    ∧ Logger.getLogKey uninitState = none
    ∧ Logger.getSessionByKey uninitState = none :=
  C6_uninit_noop uninitState 0 1 "t" rfl

/-- C7: on an initialized store holding a session key, any nonempty
sequence of attribute-setting calls leaves exactly one logs_attr row for
the (key, LOGSTARTMESSAGE) pair, holding the most recently set value
(upsert, last write wins). -/
theorem C7_attr_upsert (s : LoggerState) (k : Nat) (ts : List String) (v : String)
    (hdb : s.dbh = true) (hk : s.logkey = some k) :
    ∃ s2, setTitles s (ts ++ [v]) = some s2
      ∧ s2.logsAttr.filter
          (fun row => row.keyref == k && row.attrib == "LOGSTARTMESSAGE")
        = [⟨k, "LOGSTARTMESSAGE", v⟩] := by
  induction ts generalizing s with
  | nil =>
    refine ⟨{ s with logsAttr := Logger.upsertAttr s.logsAttr k "LOGSTARTMESSAGE" v },
      ?_, filter_upsertAttr s.logsAttr k "LOGSTARTMESSAGE" v⟩
    simp [setTitles, Logger.setSessionTitle, hdb, hk]
  | cons t ts ih =>
    have hstep : setTitles s ((t :: ts) ++ [v])
        = setTitles
            { s with logsAttr := Logger.upsertAttr s.logsAttr k "LOGSTARTMESSAGE" t }
            (ts ++ [v]) := by
      simp [setTitles, Logger.setSessionTitle, hdb, hk]
    rw [hstep]
    exact ih _ hdb hk

/-- Witness for C7: two successive sets ("a" then "b") on a freshly
created session leave the single attribute row with value "b". -/
theorem C7_attr_upsert_witness :
    ∃ s2, setTitles (Logger.startLog (initFresh "p" "n" "f.log" 6) 0 0) (["a"] ++ ["b"])
        = some s2
      ∧ s2.logsAttr.filter
          (fun row => row.keyref == 1 && row.attrib == "LOGSTARTMESSAGE")
        = [⟨1, "LOGSTARTMESSAGE", "b"⟩] :=
  C7_attr_upsert (Logger.startLog (initFresh "p" "n" "f.log" 6) 0 0) 1 ["a"] "b" rfl rfl

/-- C8 counterexample: the insert samples the clock twice (one
getDateTime call for LOGSTART, another for LASTMODIFIED); with the first
reading at 999 ms and the second at 1000 ms the two calls fall in
different seconds, so the newly created row has logStart 0 but
lastModified 1 — not the same canonical timestamp value. -/
theorem C8_timestamp_counterexample :
    ∃ r : Row, (Logger.startLog (initFresh "p" "n" "f.log" 6) 999 1000).logs = [r]
      ∧ r.logend = none ∧ r.logstart ≠ r.lastmodified :=
  ⟨⟨"p", "n", "f.log", 0, none, 1, 1⟩, rfl, rfl, by decide⟩

/-- C8 amended: at the moment of insertion the new row's logEnd is
absent, and its logStart and lastModified hold the canonical timestamps
of the two successive clock samples taken by the two getDateTime calls;
the two fields coincide whenever both samples fall within the same
formatted second, but are not guaranteed equal. -/
theorem C8_timestamps_amended (pkg nm fn : String) (lvl : Int) (t1Ms t2Ms : Nat) :
    ∃ r : Row, (Logger.startLog (initFresh pkg nm fn lvl) t1Ms t2Ms).logs = [r]
      ∧ r.logstart = Logger.getDateTime t1Ms
      ∧ r.lastmodified = Logger.getDateTime t2Ms
      ∧ r.logend = none
      ∧ (Logger.getDateTime t1Ms = Logger.getDateTime t2Ms →
          r.logstart = r.lastmodified) :=
  ⟨⟨pkg, nm, fn, Logger.getDateTime t1Ms, none, Logger.getDateTime t2Ms, 1⟩,
   rfl, rfl, rfl, rfl, fun h => h⟩

/-- Witness for C8 amended: clock samples 500 ms and 600 ms, both within
second 0. -/
theorem C8_timestamps_amended_witness :
    ∃ r : Row, (Logger.startLog (initFresh "p" "n" "f.log" 6) 500 600).logs = [r]
      ∧ r.logstart = Logger.getDateTime 500
      ∧ r.lastmodified = Logger.getDateTime 600
      ∧ r.logend = none
      ∧ (Logger.getDateTime 500 = Logger.getDateTime 600 →
          r.logstart = r.lastmodified) :=
  C8_timestamps_amended "p" "n" "f.log" 6 500 600

/-- C9: getSessionByKey returns absent in every state, even when a row
with the held key exists, because its SELECT list omits LOGKEY and the
code then reads the undefined LOGKEY property of the result row. -/
theorem C9_getSessionByKey_none (s : LoggerState) :
    Logger.getSessionByKey s = none := by
  unfold Logger.getSessionByKey
  split
  · rfl
  · split
    · rfl
    · rfl

/-- C10: the latest-session-for-filename lookup matches with SQL LIKE,
not string equality: with the stored session created for "secret.log"
and the configured lookup filename "%", getLogKey returns that session's
key although no stored row has filename "%". -/
theorem C10_like_wildcard :
    Logger.getLogKey wildcardState = some 1
    ∧ wildcardState.filename = "%"
    ∧ (∀ r ∈ wildcardState.logs, r.filename ≠ wildcardState.filename) :=
  ⟨by decide, rfl, by decide⟩
